import Mathlib

/-!
Shallow embedding of the playback-session core of `src/main.py` (a Discord
music bot built on a `CustomPlayer`).  Tracks are abstracted to an arbitrary
type `α`; the asyncio FIFO `_custom_queue` is a `List α` (head = front), and
`history`, `loop_mode`, `current`, `current_message` mirror the Python
attributes.  Two backend-visible facts are modelled as extra fields:
`connected` (whether the guild still has this voice client — when it is
`false` the Python code sees `interaction.guild.voice_client` as `None`) and
`paused` (the wavelink pause flag).  `volume` is the wavelink 0..1000 volume.
All handlers below are direct translations of the corresponding Python
functions; side effects towards Discord/Lavalink (messages, the actual audio
commands) are dropped, keeping only the session-state mutations and, where a
claim needs it, an outcome tag describing which reply path was taken.
-/

structure Session (α : Type) where
  custom_queue : List α
  history : List α
  loop_mode : Nat
  current : Option α
  current_message : Bool
  connected : Bool
  paused : Bool
  volume : Int
deriving Repr, DecidableEq

variable {α : Type} [DecidableEq α]

/-- Inline history-cap logic from `play_next_track_from_custom_queue`
(lines 69–71): `history.append(t)` followed by `if len(history) > 10:
history.pop(0)`. -/
def historyPush (h : List α) (t : α) : List α :=
  if 10 < (h ++ [t]).length then (h ++ [t]).tail else h ++ [t]

/-- CustomPlayer.disconnect_and_clean_up (lines 104–114): fresh empty queue,
empty history, loop mode 0, now-playing message dropped; the final
`self.disconnect()` tears the voice client down, so `connected := false` and
no track is loaded any more. -/
def disconnect_and_clean_up (s : Session α) : Session α :=
  { s with custom_queue := [], history := [], loop_mode := 0,
           current_message := false, current := none, connected := false }

/-- Lines 66–74 of `play_next_track_from_custom_queue`: pop the front of the
custom queue, push the just-finished `current` (if any) into history with the
cap, and play the popped track (wavelink `play` makes it the new `current`).
Only called with a non-empty queue; the `[]` branch is dead code. -/
def dequeueAndPlay (s : Session α) : Session α :=
  match s.custom_queue with
  | [] => s
  | t :: rest =>
      { s with custom_queue := rest,
               history := match s.current with
                          | some c => historyPush s.history c
                          | none => s.history,
               current := some t }

/-- CustomPlayer.play_next_track_from_custom_queue (lines 46–74). -/
def play_next_track_from_custom_queue (s : Session α) : Session α :=
  if s.loop_mode = 1 ∧ s.current.isSome then s
  else if s.custom_queue = [] then
    if s.loop_mode = 2 ∧ s.history ≠ [] then
      dequeueAndPlay { s with custom_queue := s.history, history := [] }
    else disconnect_and_clean_up s
  else dequeueAndPlay s

/-- Event handler `on_wavelink_track_end` (lines 132–149): reason 0
(FINISHED) always runs the transition; reason 1 (STOPPED) runs it only when
the custom queue is non-empty, otherwise disconnects; any other reason code
falls through with no effect. -/
def on_wavelink_track_end (reason : Nat) (s : Session α) : Session α :=
  if reason = 0 then play_next_track_from_custom_queue s
  else if reason = 1 then
    if s.custom_queue = [] then disconnect_and_clean_up s
    else play_next_track_from_custom_queue s
  else s

/-- Outcome of the Previous button: either the "No previous song in history."
reply (state untouched) or a previous track was played. -/
inductive PrevOutcome
  | noHistory
  | played
deriving Repr, DecidableEq

/-- MusicControls.previous_button (lines 167–189): if history is non-empty,
pop its last entry, rebuild the custom queue with the old `current` (if any)
at the front, and play the popped track (making it `current`). -/
def previous_button (s : Session α) : PrevOutcome × Session α :=
  match s.history.getLast? with
  | none => (PrevOutcome.noHistory, s)
  | some prev =>
      (PrevOutcome.played,
        { s with history := s.history.dropLast,
                 custom_queue := match s.current with
                                 | some c => c :: s.custom_queue
                                 | none => s.custom_queue,
                 current := some prev })

/-- Outcome of the Skip button: either one of the refusal replies ("I'm not
in a voice channel." / "No more songs in the queue to skip to." / "No music
playing to skip."), or `vc.stop()` was issued (which later fires the track-end
event with reason STOPPED; the button itself mutates nothing). -/
inductive SkipOutcome
  | refused
  | stopIssued
deriving Repr, DecidableEq

/-- MusicControls.skip_button (lines 211–227).  `vc.playing` is wavelink's
"a track is loaded on a connected player", i.e. `current.isSome` once the
`not vc` guard has passed. -/
def skip_button (s : Session α) : SkipOutcome × Session α :=
  if s.connected = false then (SkipOutcome.refused, s)
  else if s.current = none ∧ s.custom_queue = [] ∧ ¬ s.loop_mode = 2 then
    (SkipOutcome.refused, s)
  else if s.current.isSome ∨ s.paused then (SkipOutcome.stopIssued, s)
  else (SkipOutcome.refused, s)

/-- MusicControls.pause_button (lines 201–209): `if vc and vc.playing:
vc.pause(True)`. -/
def pause_button (s : Session α) : Session α :=
  if s.connected ∧ s.current.isSome then { s with paused := true } else s

/-- MusicControls.play_button (lines 191–199), the resume path: `if vc and
vc.paused: vc.pause(False)`. -/
def play_button (s : Session α) : Session α :=
  if s.connected ∧ s.paused then { s with paused := false } else s

/-- MusicControls.stop_button (lines 229–237): disconnect and clean up when a
voice client exists. -/
def stop_button (s : Session α) : Session α :=
  if s.connected then disconnect_and_clean_up s else s

/-- MusicControls.loop_button (lines 297–307): cycle loop mode 0 → 1 → 2 → 0. -/
def loop_button (s : Session α) : Session α :=
  if s.connected then { s with loop_mode := (s.loop_mode + 1) % 3 } else s

/-- MusicControls.vol_up_button (lines 309–320): `min(1000, volume + 100)`. -/
def vol_up_button (s : Session α) : Session α :=
  if s.connected then { s with volume := min 1000 (s.volume + 100) } else s

/-- MusicControls.vol_down_button (lines 322–333): `max(0, volume - 100)`. -/
def vol_down_button (s : Session α) : Session α :=
  if s.connected then { s with volume := max 0 (s.volume - 100) } else s

/-- CustomPlayer.add_to_custom_queue (lines 43–44): FIFO put = append at the
tail. -/
def add_to_custom_queue (t : α) (s : Session α) : Session α :=
  { s with custom_queue := s.custom_queue ++ [t] }

/-- Slash command `play` (lines 336–385), the state mutation on the resolved
track: if `vc.playing` (a track is loaded) the track is appended to the
custom queue, otherwise it is played directly and the fresh now-playing
message is stored.  (The deferred `play_next_track_from_custom_queue` task
scheduled on line 385 is a separate, later step of the session.) -/
def play (t : α) (s : Session α) : Session α :=
  if s.current.isSome then add_to_custom_queue t s
  else { s with current := some t, current_message := true }

/-- State of a player freshly created by `channel.connect(cls=CustomPlayer)`
(lines 36–41): empty queue and history, loop mode 0, nothing playing, default
wavelink volume. -/
def initSession : Session α :=
  { custom_queue := [], history := [], loop_mode := 0, current := none,
    current_message := false, connected := true, paused := false,
    volume := 100 }

/-- One user- or backend-driven operation on a live session (the Python
handlers all bail out when `interaction.guild.voice_client` is `None`, hence
the `connected = true` guards).  `shuffle` is the Shuffle button (lines
274–295): any permutation of the custom queue.  `nextTask` is the deferred
transition task scheduled by the `play` command (line 385). -/
inductive Step : Session α → Session α → Prop where
  | playCmd (t : α) (s : Session α) :
      s.connected = true → Step s (play t s)
  | trackEnd (r : Nat) (s : Session α) :
      s.connected = true → Step s (on_wavelink_track_end r s)
  | nextTask (s : Session α) :
      s.connected = true → Step s (play_next_track_from_custom_queue s)
  | prev (s : Session α) :
      s.connected = true → Step s (previous_button s).2
  | skip (s : Session α) :
      s.connected = true → Step s (skip_button s).2
  | pause (s : Session α) :
      s.connected = true → Step s (pause_button s)
  | resume (s : Session α) :
      s.connected = true → Step s (play_button s)
  | stop (s : Session α) :
      s.connected = true → Step s (stop_button s)
  | shuffle (s : Session α) (q2 : List α) :
      s.connected = true → s.custom_queue.Perm q2 →
      Step s { s with custom_queue := q2 }
  | loop (s : Session α) :
      s.connected = true → Step s (loop_button s)
  | volUp (s : Session α) :
      s.connected = true → Step s (vol_up_button s)
  | volDown (s : Session α) :
      s.connected = true → Step s (vol_down_button s)

/-- Session states reachable from a freshly created player. -/
inductive Reachable : Session α → Prop where
  | init : Reachable initSession
  | step {s s' : Session α} : Reachable s → Step s s' → Reachable s'

/-- Session invariant maintained by every operation: history stays within
its cap of 10; a live paused session has a track loaded; a torn-down session
has no track loaded. -/
def SessionInv (s : Session α) : Prop :=
  s.history.length ≤ 10
  ∧ (s.connected = true → s.paused = true → s.current.isSome = true)
  ∧ (s.connected = false → s.current = none)

lemma historyPush_length_le {h : List α} (t : α) (hl : h.length ≤ 10) :
    (historyPush h t).length ≤ 10 := by
  unfold historyPush
  split
  · rw [List.length_tail]
    simp only [List.length_append, List.length_cons, List.length_nil]
    omega
  · rename_i hle
    simp only [List.length_append, List.length_cons, List.length_nil,
      not_lt] at hle ⊢
    omega

lemma historyPush_of_full {h : List α} {t : α} (hl : h.length = 10) :
    historyPush h t = h.tail ++ [t] := by
  unfold historyPush
  rw [if_pos]
  · cases h with
    | nil => simp at hl
    | cons a as => simp
  · simp [hl]

lemma sessionInv_disconnect (s : Session α) :
    SessionInv (disconnect_and_clean_up s) := by
  simp [SessionInv, disconnect_and_clean_up]

lemma sessionInv_dequeueAndPlay {s : Session α} (hc : s.connected = true)
    (hInv : SessionInv s) : SessionInv (dequeueAndPlay s) := by
  obtain ⟨h1, h2, h3⟩ := hInv
  unfold dequeueAndPlay
  cases hq : s.custom_queue with
  | nil => exact ⟨h1, h2, h3⟩
  | cons t rest =>
      refine ⟨?_, fun _ _ => rfl, fun hf => ?_⟩
      · cases hcur : s.current with
        | none => simpa using h1
        | some c => simpa using historyPush_length_le c h1
      · simp [hc] at hf

lemma sessionInv_playNext {s : Session α} (hc : s.connected = true)
    (hInv : SessionInv s) : SessionInv (play_next_track_from_custom_queue s) := by
  obtain ⟨h1, h2, h3⟩ := hInv
  unfold play_next_track_from_custom_queue
  split
  · exact ⟨h1, h2, h3⟩
  · split
    · split
      · apply sessionInv_dequeueAndPlay
        · exact hc
        · refine ⟨by simp, fun hcon hp => h2 hcon hp, fun hf => ?_⟩
          simp [hc] at hf
      · exact sessionInv_disconnect s
    · exact sessionInv_dequeueAndPlay hc ⟨h1, h2, h3⟩

lemma sessionInv_trackEnd (r : Nat) {s : Session α} (hc : s.connected = true)
    (hInv : SessionInv s) : SessionInv (on_wavelink_track_end r s) := by
  unfold on_wavelink_track_end
  split
  · exact sessionInv_playNext hc hInv
  · split
    · split
      · exact sessionInv_disconnect s
      · exact sessionInv_playNext hc hInv
    · exact hInv

lemma sessionInv_play (t : α) {s : Session α} (hc : s.connected = true)
    (hInv : SessionInv s) : SessionInv (play t s) := by
  obtain ⟨h1, h2, h3⟩ := hInv
  unfold play add_to_custom_queue
  split
  · exact ⟨h1, h2, h3⟩
  · refine ⟨h1, fun _ _ => rfl, fun hf => ?_⟩
    simp [hc] at hf

lemma sessionInv_previous {s : Session α} (hc : s.connected = true)
    (hInv : SessionInv s) : SessionInv (previous_button s).2 := by
  obtain ⟨h1, h2, h3⟩ := hInv
  unfold previous_button
  cases hL : s.history.getLast? with
  | none => exact ⟨h1, h2, h3⟩
  | some prev =>
      refine ⟨?_, fun _ _ => rfl, fun hf => ?_⟩
      · simp only [List.length_dropLast]
        omega
      · simp [hc] at hf

lemma skip_button_snd (s : Session α) : (skip_button s).2 = s := by
  unfold skip_button
  split
  · rfl
  · split
    · rfl
    · split <;> rfl

lemma sessionInv_pause {s : Session α} (hInv : SessionInv s) :
    SessionInv (pause_button s) := by
  obtain ⟨h1, h2, h3⟩ := hInv
  unfold pause_button
  split
  · rename_i hcond
    exact ⟨h1, fun _ _ => hcond.2, fun hf => by simp [hcond.1] at hf⟩
  · exact ⟨h1, h2, h3⟩

lemma sessionInv_resume {s : Session α} (hInv : SessionInv s) :
    SessionInv (play_button s) := by
  obtain ⟨h1, h2, h3⟩ := hInv
  unfold play_button
  split
  · exact ⟨h1, fun _ hp => by simp at hp, h3⟩
  · exact ⟨h1, h2, h3⟩

lemma sessionInv_stop {s : Session α} (hInv : SessionInv s) :
    SessionInv (stop_button s) := by
  unfold stop_button
  split
  · exact sessionInv_disconnect s
  · exact hInv

lemma sessionInv_loop {s : Session α} (hInv : SessionInv s) :
    SessionInv (loop_button s) := by
  obtain ⟨h1, h2, h3⟩ := hInv
  unfold loop_button
  split
  · exact ⟨h1, h2, h3⟩
  · exact ⟨h1, h2, h3⟩

lemma sessionInv_volUp {s : Session α} (hInv : SessionInv s) :
    SessionInv (vol_up_button s) := by
  obtain ⟨h1, h2, h3⟩ := hInv
  unfold vol_up_button
  split
  · exact ⟨h1, h2, h3⟩
  · exact ⟨h1, h2, h3⟩

lemma sessionInv_volDown {s : Session α} (hInv : SessionInv s) :
    SessionInv (vol_down_button s) := by
  obtain ⟨h1, h2, h3⟩ := hInv
  unfold vol_down_button
  split
  · exact ⟨h1, h2, h3⟩
  · exact ⟨h1, h2, h3⟩

lemma reachable_sessionInv {s : Session α} (h : Reachable s) : SessionInv s := by
  induction h with
  | init =>
      refine ⟨by simp [initSession], fun _ hp => ?_, fun hf => ?_⟩
      · simp [initSession] at hp
      · simp [initSession] at hf
  | step _ hstep ih =>
      cases hstep with
      | playCmd t u hc => exact sessionInv_play t hc ih
      | trackEnd r u hc => exact sessionInv_trackEnd r hc ih
      | nextTask u hc => exact sessionInv_playNext hc ih
      | prev u hc => exact sessionInv_previous hc ih
      | skip u hc => rw [skip_button_snd]; exact ih
      | pause u hc => exact sessionInv_pause ih
      | resume u hc => exact sessionInv_resume ih
      | stop u hc => exact sessionInv_stop ih
      | shuffle u q2 hc hperm =>
          obtain ⟨h1, h2, h3⟩ := ih
          exact ⟨h1, h2, h3⟩
      | loop u hc => exact sessionInv_loop ih
      | volUp u hc => exact sessionInv_volUp ih
      | volDown u hc => exact sessionInv_volDown ih

lemma skip_button_fst_of_some {s : Session α} (a : α)
    (hcur : s.current = some a) (hcon : s.connected = true) :
    (skip_button s).1 = SkipOutcome.stopIssued := by
  simp [skip_button, hcur, hcon]

lemma skip_button_fst_refused_of_none {s : Session α}
    (hcur : s.current = none) (hp : s.paused = false) :
    (skip_button s).1 = SkipOutcome.refused := by
  simp [skip_button, hcur, hp, apply_ite]

/-- Claim C1: the TrackStopped trigger (reason 1, explicit stop/skip) runs the
transition algorithm only if the custom queue is non-empty; with an empty
queue it disconnects regardless of loop mode and history, whereas
TrackFinished (reason 0) always runs the full transition algorithm, including
its QUEUE-loop history drain. -/
theorem trackStopped_empty_queue_disconnects (s : Session α) :
    (s.custom_queue = [] →
        on_wavelink_track_end 1 s = disconnect_and_clean_up s)
    ∧ (s.custom_queue ≠ [] →
        on_wavelink_track_end 1 s = play_next_track_from_custom_queue s)
    ∧ on_wavelink_track_end 0 s = play_next_track_from_custom_queue s := by
  refine ⟨fun h => ?_, fun h => ?_, ?_⟩ <;>
    simp [on_wavelink_track_end, *]

theorem trackStopped_empty_queue_disconnects_witness :
    on_wavelink_track_end 1
        (⟨[], [1, 2], 2, some 3, true, true, false, 100⟩ : Session Nat)
      = disconnect_and_clean_up ⟨[], [1, 2], 2, some 3, true, true, false, 100⟩ :=
  (trackStopped_empty_queue_disconnects _).1 rfl

/-- Claim C2: with loop mode QUEUE, an empty custom queue and non-empty
history, TrackFinished drains the whole history into the queue in oldest-first
order and clears it, then dequeues normally: the oldest history entry becomes
`current`, the rest of the history becomes the queue, and the history
afterwards holds just the track that had been playing (it was pushed after the
drain cleared the list). -/
theorem queue_loop_drains_history (s : Session α) (a : α) (rest : List α)
    (hl : s.loop_mode = 2) (hq : s.custom_queue = [])
    (hh : s.history = a :: rest) :
    (on_wavelink_track_end 0 s).current = some a
    ∧ (on_wavelink_track_end 0 s).custom_queue = rest
    ∧ (on_wavelink_track_end 0 s).history = s.current.toList := by
  cases hcur : s.current with
  | none =>
      simp [on_wavelink_track_end, play_next_track_from_custom_queue,
        dequeueAndPlay, hl, hq, hh, hcur]
  | some c =>
      simp [on_wavelink_track_end, play_next_track_from_custom_queue,
        dequeueAndPlay, historyPush, hl, hq, hh, hcur]

theorem queue_loop_drains_history_witness :
    (on_wavelink_track_end 0
        (⟨[], [1, 2], 2, some 3, true, true, false, 100⟩ : Session Nat)).current
      = some 1
    ∧ (on_wavelink_track_end 0
        (⟨[], [1, 2], 2, some 3, true, true, false, 100⟩ : Session Nat)).custom_queue
      = [2]
    ∧ (on_wavelink_track_end 0
        (⟨[], [1, 2], 2, some 3, true, true, false, 100⟩ : Session Nat)).history
      = (⟨[], [1, 2], 2, some 3, true, true, false, 100⟩ : Session Nat).current.toList :=
  queue_loop_drains_history _ 1 [2] rfl rfl rfl

/-- Claim C3: with loop mode SONG and a track loaded, TrackFinished replays
the same `current` track: the session is unchanged, in particular `current`
stays the same and neither history nor the queue move (the replayed track is
not pushed into history). -/
theorem song_loop_replays_current (s : Session α) (a : α)
    (hl : s.loop_mode = 1) (hc : s.current = some a) :
    on_wavelink_track_end 0 s = s
    ∧ (on_wavelink_track_end 0 s).current = some a
    ∧ (on_wavelink_track_end 0 s).history = s.history
    ∧ (on_wavelink_track_end 0 s).custom_queue = s.custom_queue := by
  have h : on_wavelink_track_end 0 s = s := by
    simp [on_wavelink_track_end, play_next_track_from_custom_queue, hl, hc]
  exact ⟨h, by rw [h, hc], by rw [h], by rw [h]⟩

theorem song_loop_replays_current_witness :
    on_wavelink_track_end 0
        (⟨[4], [1, 2], 1, some 3, true, true, false, 100⟩ : Session Nat)
      = ⟨[4], [1, 2], 1, some 3, true, true, false, 100⟩ :=
  (song_loop_replays_current _ 3 rfl rfl).1

/-- Claim C4: the Previous button fails with the no-history reply exactly when
the history is empty, leaving the session unchanged in that case; otherwise it
removes the last history entry (history shrinks by exactly one), the old
`current` (if present) becomes the new front of the queue with the prior queue
contents behind it in order, and `current` becomes the popped history entry. -/
theorem previous_button_spec (s : Session α) :
    ((previous_button s).1 = PrevOutcome.noHistory ↔ s.history = [])
    ∧ (s.history = [] → (previous_button s).2 = s)
    ∧ ∀ (p : α) (h2 : List α), s.history = h2 ++ [p] →
        (previous_button s).2.current = some p
        ∧ (previous_button s).2.history = h2
        ∧ s.history.length = (previous_button s).2.history.length + 1
        ∧ (previous_button s).2.custom_queue = s.current.toList ++ s.custom_queue := by
  refine ⟨?_, fun hnil => ?_, fun p h2 hh => ?_⟩
  · rcases List.eq_nil_or_concat s.history with hnil | ⟨l, a, hcat⟩
    · simp [previous_button, hnil]
    · simp [previous_button, hcat, List.getLast?_concat]
  · simp [previous_button, hnil]
  · cases hcur : s.current with
    | none =>
        simp [previous_button, hh, hcur, List.getLast?_concat,
          List.dropLast_concat]
    | some c =>
        simp [previous_button, hh, hcur, List.getLast?_concat,
          List.dropLast_concat]

theorem previous_button_spec_witness :
    (previous_button (⟨[4], [1, 2], 0, some 3, true, true, false, 100⟩ : Session Nat)).2.current
      = some 2
    ∧ (previous_button (⟨[4], [1, 2], 0, some 3, true, true, false, 100⟩ : Session Nat)).2.history
      = [1]
    ∧ (⟨[4], [1, 2], 0, some 3, true, true, false, 100⟩ : Session Nat).history.length
      = (previous_button (⟨[4], [1, 2], 0, some 3, true, true, false, 100⟩ : Session Nat)).2.history.length + 1
    ∧ (previous_button (⟨[4], [1, 2], 0, some 3, true, true, false, 100⟩ : Session Nat)).2.custom_queue
      = (⟨[4], [1, 2], 0, some 3, true, true, false, 100⟩ : Session Nat).current.toList
        ++ (⟨[4], [1, 2], 0, some 3, true, true, false, 100⟩ : Session Nat).custom_queue :=
  (previous_button_spec _).2.2 2 [1] rfl

/-- Claim C5: in every reachable session state the history holds at most 10
entries; pushing onto a full history of 10 drops the oldest (front) entry,
and pushing tracks 1..15 in order leaves exactly tracks 6..15 in order. -/
theorem history_capped_at_ten :
    (∀ s : Session Nat, Reachable s → s.history.length ≤ 10)
    ∧ (∀ (h : List Nat) (t : Nat), h.length = 10 →
        historyPush h t = h.tail ++ [t])
    ∧ (List.range' 1 15).foldl historyPush ([] : List Nat) = List.range' 6 10 := by
  refine ⟨fun s hs => (reachable_sessionInv hs).1,
    fun h t hl => historyPush_of_full hl, ?_⟩
  rfl

theorem history_capped_at_ten_witness :
    (initSession : Session Nat).history.length ≤ 10
    ∧ historyPush (List.range' 1 10) 11 = (List.range' 1 10).tail ++ [11] :=
  ⟨history_capped_at_ten.1 initSession Reachable.init,
   history_capped_at_ten.2.1 (List.range' 1 10) 11 rfl⟩

/-- Claim C6: every play request either starts the track (nothing loaded:
`current` becomes the track and a now-playing message is shown) or appends it
to the tail of the custom queue (something is playing); in either case the
track is never silently dropped. -/
theorem play_never_drops (s : Session α) (t : α) :
    (s.current = none →
        play t s = { s with current := some t, current_message := true })
    ∧ (s.current.isSome = true →
        play t s = { s with custom_queue := s.custom_queue ++ [t] })
    ∧ ((play t s).current = some t ∨ t ∈ (play t s).custom_queue) := by
  refine ⟨fun hc => ?_, fun hc => ?_, ?_⟩
  · simp [play, hc]
  · simp [play, add_to_custom_queue, hc]
  · cases hc : s.current with
    | none => left; simp [play, hc]
    | some c => right; simp [play, add_to_custom_queue, hc]

theorem play_never_drops_witness :
    play 7 (initSession : Session Nat)
      = { (initSession : Session Nat) with
          current := some 7, current_message := true } :=
  (play_never_drops initSession 7).1 rfl

/-- Claim C7: on every reachable session, the Skip button refuses with a
user-facing message and no state mutation exactly when no track is loaded;
when a track is present it issues a backend stop instead of mutating
queue/history/current itself (the state change happens only through the later
TrackStopped event), and indeed the button never mutates the session. -/
theorem skip_button_spec (s : Session α) (hr : Reachable s) :
    ((skip_button s).1 = SkipOutcome.refused ↔ s.current = none)
    ∧ (skip_button s).2 = s
    ∧ (s.current.isSome = true →
        (skip_button s).1 = SkipOutcome.stopIssued) := by
  obtain ⟨h1, h2, h3⟩ := reachable_sessionInv hr
  have hsome : ∀ a : α, s.current = some a →
      (skip_button s).1 = SkipOutcome.stopIssued := by
    intro a hcur
    by_cases hcon : s.connected = true
    · exact skip_button_fst_of_some a hcur hcon
    · have hcf : s.connected = false := by
        revert hcon; cases s.connected <;> simp
      rw [h3 hcf] at hcur
      cases hcur
  refine ⟨⟨fun hrefused => ?_, fun hnone => ?_⟩, skip_button_snd s, fun hs => ?_⟩
  · cases hcur : s.current with
    | none => rfl
    | some a => rw [hsome a hcur] at hrefused; cases hrefused
  · by_cases hcon : s.connected = true
    · have hp : s.paused = false := by
        cases hpb : s.paused
        · rfl
        · have := h2 hcon hpb
          rw [hnone] at this
          simp at this
      exact skip_button_fst_refused_of_none hnone hp
    · have hcf : s.connected = false := by
        revert hcon; cases s.connected <;> simp
      simp [skip_button, hcf]
  · obtain ⟨a, hcur⟩ := Option.isSome_iff_exists.mp hs
    exact hsome a hcur

theorem skip_button_spec_witness :
    (((skip_button (initSession : Session Nat)).1 = SkipOutcome.refused) ↔
        (initSession : Session Nat).current = none)
    ∧ (skip_button (initSession : Session Nat)).2 = initSession
    ∧ ((initSession : Session Nat).current.isSome = true →
        (skip_button (initSession : Session Nat)).1 = SkipOutcome.stopIssued) :=
  skip_button_spec initSession Reachable.init

/-- Claim C8: disconnect_and_clean_up leaves the session in the terminal
state — empty queue, empty history, loop mode OFF, no now-playing message
(and no loaded track) — and is idempotent: applying it twice gives exactly
the state of applying it once. -/
theorem shutdown_terminal_and_idempotent (s : Session α) :
    (disconnect_and_clean_up s).custom_queue = []
    ∧ (disconnect_and_clean_up s).history = []
    ∧ (disconnect_and_clean_up s).loop_mode = 0
    ∧ (disconnect_and_clean_up s).current_message = false
    ∧ (disconnect_and_clean_up s).current = none
    ∧ disconnect_and_clean_up (disconnect_and_clean_up s)
        = disconnect_and_clean_up s := by
  simp [disconnect_and_clean_up]

/-- Claim C9: from any volume v in [0, 1000] on a live session, volume-up
sets min(1000, v + 100) and volume-down sets max(0, v - 100); in particular
950 goes up to 1000 (not 1050) and 50 goes down to 0 (never negative), so the
volume always stays in [0, 1000]. -/
theorem volume_clamped (s : Session α) (hcon : s.connected = true)
    (h0 : 0 ≤ s.volume) (h1 : s.volume ≤ 1000) :
    (vol_up_button s).volume = min 1000 (s.volume + 100)
    ∧ (vol_down_button s).volume = max 0 (s.volume - 100)
    ∧ 0 ≤ (vol_up_button s).volume ∧ (vol_up_button s).volume ≤ 1000
    ∧ 0 ≤ (vol_down_button s).volume ∧ (vol_down_button s).volume ≤ 1000
    ∧ (s.volume = 950 → (vol_up_button s).volume = 1000)
    ∧ (s.volume = 50 → (vol_down_button s).volume = 0) := by
  have hu : (vol_up_button s).volume = min 1000 (s.volume + 100) := by
    simp [vol_up_button, hcon]
  have hd : (vol_down_button s).volume = max 0 (s.volume - 100) := by
    simp [vol_down_button, hcon]
  refine ⟨hu, hd, ?_, ?_, ?_, ?_, fun h950 => ?_, fun h50 => ?_⟩
  · rw [hu, min_def]; split <;> omega
  · rw [hu, min_def]; split <;> omega
  · rw [hd, max_def]; split <;> omega
  · rw [hd, max_def]; split <;> omega
  · rw [hu, h950]; norm_num
  · rw [hd, h50]; norm_num

theorem volume_clamped_witness :
    (vol_up_button { (initSession : Session Nat) with volume := 950 }).volume
      = min 1000 ({ (initSession : Session Nat) with volume := 950 }.volume + 100)
    ∧ (vol_down_button { (initSession : Session Nat) with volume := 950 }).volume
      = max 0 ({ (initSession : Session Nat) with volume := 950 }.volume - 100) :=
  ⟨(volume_clamped _ rfl (by norm_num) (by norm_num)).1,
   (volume_clamped { (initSession : Session Nat) with volume := 950 }
      rfl (by norm_num) (by norm_num)).2.1⟩

/-- Claim C10: a track-end event whose reason code is neither 0 (FINISHED)
nor 1 (STOPPED) — an error or track-replaced report — is silently ignored:
no transition runs and queue, history, `current` and loop mode are all left
unchanged. -/
theorem unknown_reason_ignored (r : Nat) (s : Session α)
    (h0 : r ≠ 0) (h1 : r ≠ 1) :
    on_wavelink_track_end r s = s
    ∧ (on_wavelink_track_end r s).custom_queue = s.custom_queue
    ∧ (on_wavelink_track_end r s).history = s.history
    ∧ (on_wavelink_track_end r s).current = s.current
    ∧ (on_wavelink_track_end r s).loop_mode = s.loop_mode := by
  have h : on_wavelink_track_end r s = s := by
    simp [on_wavelink_track_end, h0, h1]
  exact ⟨h, by rw [h], by rw [h], by rw [h], by rw [h]⟩

theorem unknown_reason_ignored_witness :
    on_wavelink_track_end 2
        (⟨[4], [1, 2], 2, some 3, true, true, false, 100⟩ : Session Nat)
      = ⟨[4], [1, 2], 2, some 3, true, true, false, 100⟩ :=
  (unknown_reason_ignored 2 _ (by decide) (by decide)).1
